import Mathlib

/-!
Verification development for the `http-request-factory` library
(`HTTPRequestFactory`, `HTTPRequest`, `HTTPError`, `ConsoleLogger`).

The TypeScript sources are shallowly embedded: the mutable request
configuration becomes an explicit record, the factory's shared
`requestDefaults` array becomes a single cell in a `World` record (all
requests created by the factory alias it, exactly as in the source where
`new HTTPRequest(url, method, this.requestDefaults)` passes the array by
reference), and `HTTPRequest.execute` becomes a pure function from the
request state plus a transport environment to an outcome record that also
tracks the observables the specification talks about (whether the
transport ran, whether the timeout timer was armed and cleared, the
resolved outbound headers, how many error interceptors ran).

Opaque "any" values (parsed response bodies, interceptor results) are
modelled as `Val := String`; callback values stored inside the request
configuration (header resolvers, interceptors, body transformers) receive
a `ReqView` projection of the request rather than the request itself, to
keep the configuration record well-founded.
-/

set_option autoImplicit false

namespace HttpReqFactory

/-- Opaque application-level value (parsed bodies, interceptor results). -/
abbrev Val := String

/-- The projection of a request that stored callbacks can observe:
`request.url`, `request.method` and the `meta` accessor. -/
structure ReqView where
  url : String
  method : String
  meta : List (String × String)

/-- A header value as in `types.ts`: a literal string or a resolver
function `(request) => string | undefined`. -/
inductive HeaderValue where
  | lit (s : String)
  | res (f : ReqView → Option String)

/-- A URL-template parameter value: scalar or resolver function. -/
inductive UrlParamValue where
  | lit (s : String)
  | res (f : ReqView → String)

/-- Structured HTTP error from `HTTPError.ts`: status code, message and
optional parsed body. The code is an integer so that the client-side
sentinel `-1` is representable. -/
structure HTTPError where
  code : Int
  message : String
  body : Option Val
deriving DecidableEq

/-- Translation of `HTTPError.isUnauthorized`. -/
def HTTPError.isUnauthorized (e : HTTPError) : Bool := e.code == 401

/-- Translation of `HTTPError.isNotFound`. -/
def HTTPError.isNotFound (e : HTTPError) : Bool := e.code == 404

/-- Translation of `HTTPError.isForbidden`. -/
def HTTPError.isForbidden (e : HTTPError) : Bool := e.code == 403

/-- Translation of `HTTPError.isTimedOut`. -/
def HTTPError.isTimedOut (e : HTTPError) : Bool := e.code == 504

/-- Translation of `HTTPError.isAborted`: the sentinel `-1` set when the
transport call was aborted (explicit cancellation or timeout expiry). -/
def HTTPError.isAborted (e : HTTPError) : Bool := e.code == -1

/-- Response descriptor returned by the injected transport (`fetch`).
`body` stands for the value `readResponse` produces once the body has
been read and parsed according to its content type; the content-type
dispatch itself is internal to the external transport boundary. -/
structure TransportResponse where
  status : Nat
  statusText : String
  body : Val
deriving DecidableEq

/-- The WHATWG-fetch `response.ok` flag: status in the 2xx range. -/
def TransportResponse.ok (r : TransportResponse) : Bool :=
  200 ≤ r.status && r.status ≤ 299

/-- A request interceptor `(request, commands) => any | undefined`;
`none` is the "no opinion" sentinel (`undefined`). -/
abbrev RequestInterceptor := ReqView → Option Val

/-- A response interceptor `(response, request) => any | undefined`. -/
abbrev ResponseInterceptor := TransportResponse → ReqView → Option Val

/-- A response body transformer `(body, request) => any`. -/
abbrev Transformer := Val → ReqView → Val

/-- An error interceptor `(error) => boolean`; `true` means "handled"
and stops the remaining interceptors. -/
abbrev ErrorInterceptor := HTTPError → Bool

/-- The mutable configuration owned by one `HTTPRequest`
(`RequestConfig` in `types.ts`). -/
structure ReqConfig where
  url : String
  method : String
  headers : List (String × HeaderValue)
  body : Option (Unit → Val)
  timeout : Nat
  ignoreResponseBody : Bool
  credentials : String
  corsMode : String
  logLevel : String
  meta : List (String × String)
  queryParams : List (String × String)
  urlParams : List (String × UrlParamValue)
  acceptedMIMETypes : List String
  requestInterceptors : List RequestInterceptor
  responseInterceptors : List ResponseInterceptor
  errorInterceptors : List ErrorInterceptor
  responseBodyTransformers : List Transformer

/-- The view of a request exposed to stored callbacks. -/
def ReqConfig.view (c : ReqConfig) : ReqView :=
  { url := c.url, method := c.method, meta := c.meta }

/-- JavaScript object-assignment semantics on an association list:
overwrite the first binding of the key in place, or append a new one. -/
def setKey {α : Type} : List (String × α) → String → α → List (String × α)
  | [], n, v => [(n, v)]
  | (k, w) :: rest, n, v =>
      if k = n then (n, v) :: rest else (k, w) :: setKey rest n v

/-- The initial configuration built by the `HTTPRequest` constructor. -/
def initialConfig (url method : String) : ReqConfig :=
  { url := url
    method := method
    headers := []
    body := none
    timeout := 0
    ignoreResponseBody := false
    credentials := "same-origin"
    corsMode := "cors"
    logLevel := "error"
    meta := []
    queryParams := []
    urlParams := []
    acceptedMIMETypes := ["*/*"]
    requestInterceptors := []
    responseInterceptors := []
    errorInterceptors := []
    responseBodyTransformers := [] }

/-- Resolution of one header value (`HTTPRequest.setupHeaders` loop body):
a function value is called with the request, a literal passes through.
`none` stands for a nullish (`undefined`/`null`) resolution. -/
def resolveHeader : HeaderValue → ReqView → Option String
  | .lit s, _ => some s
  | .res f, v => f v

/-- Translation of `HTTPRequest.setupHeaders`: resolve every function-valued
header with the request, then `headers[n] ?? delete headers[n]` keeps any
non-nullish result (including the empty string) and deletes the rest. -/
def setupHeaders (hs : List (String × HeaderValue)) (v : ReqView) :
    List (String × String) :=
  match hs with
  | [] => []
  | (n, hv) :: rest =>
      match resolveHeader hv v with
      | some s => (n, s) :: setupHeaders rest v
      | none => setupHeaders rest v

/-- Serialization of the query-parameter map (`URLSearchParams` in
`setupQueryParams`); percent-encoding is not modelled. -/
def serializeQuery : List (String × String) → String
  | [] => ""
  | [(k, v)] => k ++ "=" ++ v
  | (k, v) :: rest => k ++ "=" ++ v ++ "&" ++ serializeQuery rest

/-- Translation of `HTTPRequest.setupQueryParams`: when the map is
non-empty, append `?` and the serialized parameters to the URL. -/
def setupQueryParams (c : ReqConfig) : ReqConfig :=
  if c.queryParams.isEmpty then c
  else { c with url := c.url ++ "?" ++ serializeQuery c.queryParams }

/-- Replacement of the first occurrence of `pat` in `s`
(JavaScript `String.prototype.replace` with a string pattern). -/
def replaceFirst (s pat rep : String) : String :=
  match s.splitOn pat with
  | [] => s
  | [_] => s
  | a :: rest => a ++ rep ++ String.intercalate pat rest

/-- Translation of `HTTPRequest.setupURL`: substitute each
`\x7b\x7bkey\x7d\x7d` placeholder with the literal or resolver-produced
value from `urlParams`; unmatched placeholders stay as they are. -/
def setupURL (c : ReqConfig) : ReqConfig :=
  { c with
    url := c.urlParams.foldl
      (fun u p =>
        replaceFirst u ("\x7b\x7b" ++ p.1 ++ "\x7d\x7d")
          (match p.2 with
           | .lit s => s
           | .res f => f c.view))
      c.url }

/-- A default-configuration step enqueued on the factory
(`requestDefaults` entries, `(request) => void`). -/
abbrev Step := ReqConfig → ReqConfig

/-- Application of the captured default-configuration steps, in
registration order (`this.configBuilders.forEach((config) => config(this))`). -/
def applySteps (steps : List Step) (c : ReqConfig) : ReqConfig :=
  steps.foldl (fun c s => s c) c

/-- The wrapper built by the `when(condition)` proxy around a mutating
factory call: apply the wrapped operation only if the predicate holds of
the request at step-application time. -/
def whenStep (p : ReqConfig → Bool) (op : Step) : Step :=
  fun c => if p c then op c else c

/-- Translation of `HTTPRequest.withHeader` on the configuration. -/
def withHeaderC (c : ReqConfig) (n : String) (v : HeaderValue) : ReqConfig :=
  { c with headers := setKey c.headers n v }

/-- The descriptor handed to the transport: `fetchBody` after
`setupHeaders` / `setupTimeout` / `setupBody` have populated it. -/
structure FetchDescriptor where
  method : String
  mode : String
  credentials : String
  headers : List (String × String)
  hasSignal : Bool
  body : Option Val

/-- Transport outcome: a response descriptor, or a thrown error carrying
its `name` (the engine special-cases `"AbortError"`). -/
inductive FetchOutcome where
  | resp (r : TransportResponse)
  | exn (name : String) (payload : Val)

/-- The external environment of one execution: the injected fetch-like
transport capability. -/
structure ExecEnv where
  fetch : String → FetchDescriptor → FetchOutcome

/-- The settled result of `execute()`. -/
inductive ExecResult where
  | reuseError (msg : String)
  | value (v : Option Val)
  | httpError (e : HTTPError)
  | exnError (name : String) (payload : Val)
deriving DecidableEq

/-- The reuse-error message thrown by `execute()` on a spent request. -/
def reuseMessage : String :=
  "HttpRequests cannot be reused. Please call a request factory method for every new call"

/-- Outcome of one `execute()` call together with the observables the
specification reasons about. -/
structure ExecOutcome where
  result : ExecResult
  transportCalled : Bool
  timerArmed : Bool
  timerCleared : Bool
  shortCircuitByRequestInterceptor : Bool
  loggedFetchError : Bool
  outboundHeaders : List (String × String)
  outboundURL : String
  errorInterceptorsInvoked : Nat

/-- A timer counts as leaking when it was armed and no exit path cleared it. -/
def ExecOutcome.timerLeftArmed (o : ExecOutcome) : Bool :=
  o.timerArmed && !o.timerCleared

/-- The request-interceptor loop of `execute()`: call each interceptor in
registration order; `undefined` (`none`) falls through to the next one,
the first defined result is returned. -/
def runRequestInterceptors : List RequestInterceptor → ReqView → Option Val
  | [], _ => none
  | i :: rest, v =>
      match i v with
      | none => runRequestInterceptors rest v
      | some r => some r

/-- The response-body transformer chain: each transformer receives the
previous transformer's output and the request. -/
def applyTransformers (ts : List Transformer) (x : Val) (v : ReqView) : Val :=
  ts.foldl (fun acc t => t acc v) x

/-- The response-interceptor loop of `execute()`: first interceptor
returning a defined value short-circuits with that value. -/
def runResponseInterceptors :
    List ResponseInterceptor → TransportResponse → ReqView → Option Val
  | [], _, _ => none
  | i :: rest, r, v =>
      match i r v with
      | none => runResponseInterceptors rest r v
      | some out => some out

/-- The error-interceptor loop of `execute()`: run each interceptor in
registration order until one returns a truthy value (`break`), returning
how many interceptors were invoked. The constructed error is rejected
afterwards unconditionally. -/
def runErrorInterceptors : List ErrorInterceptor → HTTPError → Nat
  | [], _ => 0
  | i :: rest, e => if i e then 1 else 1 + runErrorInterceptors rest e

/-- Mutable state of one `HTTPRequest`: the spent flag and the
configuration. The captured default-step list is not stored here because
the source shares it by reference with the factory; it is passed to
`executeReq` by the owner of the shared cell. -/
structure ReqState where
  wasUsed : Bool
  config : ReqConfig

/-- The configuration visible to interceptors and the transport: default
steps applied in registration order, then headers resolved in place, then
the query string appended, then URL placeholders substituted
(the `execute()` pipeline before `this.wasUsed = true`). -/
def preparedConfig (builders : List Step) (c : ReqConfig) : ReqConfig :=
  let c0 := applySteps builders c
  let c1 := { c0 with
    headers := (setupHeaders c0.headers c0.view).map
      (fun p => (p.1, HeaderValue.lit p.2)) }
  setupURL (setupQueryParams c1)

/-- The resolved header list that `setupHeaders` stores into
`fetchBody.headers`. -/
def resolvedHeadersOf (builders : List Step) (c : ReqConfig) :
    List (String × String) :=
  let c0 := applySteps builders c
  setupHeaders c0.headers c0.view

/-- The `fetchBody` descriptor passed to the transport. A cancellation
signal is attached exactly when `config.timeout` is non-zero
(`setupTimeout`), and the body thunk is forced at send time (`setupBody`). -/
def descriptorOf (builders : List Step) (c : ReqConfig) : FetchDescriptor :=
  let cp := preparedConfig builders c
  { method := cp.method
    mode := cp.corsMode
    credentials := cp.credentials
    headers := resolvedHeadersOf builders c
    hasSignal := cp.timeout ≠ 0
    body := cp.body.map (fun f => f ()) }

/-- Translation of `HTTPRequest.execute`, given the current contents of
the shared default-step array. Faithful control flow: the reuse check
comes first; the default steps and the setup phase run before
`wasUsed = true`; the request-interceptor loop runs outside the
`try/finally` that guards the transport call, so a request-interceptor
short-circuit returns without clearing the timeout timer; all paths
inside the `try` clear it in `finally`. -/
def executeReq (builders : List Step) (r : ReqState) (env : ExecEnv) :
    ReqState × ExecOutcome :=
  if r.wasUsed then
    (r,
     { result := .reuseError reuseMessage
       transportCalled := false
       timerArmed := false
       timerCleared := false
       shortCircuitByRequestInterceptor := false
       loggedFetchError := false
       outboundHeaders := []
       outboundURL := r.config.url
       errorInterceptorsInvoked := 0 })
  else
    let cp := preparedConfig builders r.config
    let resolved := resolvedHeadersOf builders r.config
    let armed := decide (cp.timeout ≠ 0)
    let desc := descriptorOf builders r.config
    let view := cp.view
    let st1 : ReqState := { wasUsed := true, config := cp }
    match runRequestInterceptors cp.requestInterceptors view with
    | some res =>
        (st1,
         { result := .value (some (applyTransformers cp.responseBodyTransformers res view))
           transportCalled := false
           timerArmed := armed
           timerCleared := false
           shortCircuitByRequestInterceptor := true
           loggedFetchError := false
           outboundHeaders := resolved
           outboundURL := cp.url
           errorInterceptorsInvoked := 0 })
    | none =>
        match env.fetch cp.url desc with
        | .resp resp =>
            match runResponseInterceptors cp.responseInterceptors resp view with
            | some out =>
                (st1,
                 { result := .value (some out)
                   transportCalled := true
                   timerArmed := armed
                   timerCleared := true
                   shortCircuitByRequestInterceptor := false
                   loggedFetchError := false
                   outboundHeaders := resolved
                   outboundURL := cp.url
                   errorInterceptorsInvoked := 0 })
            | none =>
                if resp.ok then
                  if cp.ignoreResponseBody || resp.status == 204 then
                    (st1,
                     { result := .value none
                       transportCalled := true
                       timerArmed := armed
                       timerCleared := true
                       shortCircuitByRequestInterceptor := false
                       loggedFetchError := false
                       outboundHeaders := resolved
                       outboundURL := cp.url
                       errorInterceptorsInvoked := 0 })
                  else
                    (st1,
                     { result := .value (some (applyTransformers
                         cp.responseBodyTransformers resp.body view))
                       transportCalled := true
                       timerArmed := armed
                       timerCleared := true
                       shortCircuitByRequestInterceptor := false
                       loggedFetchError := false
                       outboundHeaders := resolved
                       outboundURL := cp.url
                       errorInterceptorsInvoked := 0 })
                else
                  let err : HTTPError :=
                    { code := (resp.status : Int)
                      message := resp.statusText
                      body := some resp.body }
                  (st1,
                   { result := .httpError err
                     transportCalled := true
                     timerArmed := armed
                     timerCleared := true
                     shortCircuitByRequestInterceptor := false
                     loggedFetchError := false
                     outboundHeaders := resolved
                     outboundURL := cp.url
                     errorInterceptorsInvoked :=
                       runErrorInterceptors cp.errorInterceptors err })
        | .exn name payload =>
            if name = "AbortError" then
              (st1,
               { result := .httpError
                   { code := -1, message := "Request aborted", body := none }
                 transportCalled := true
                 timerArmed := armed
                 timerCleared := true
                 shortCircuitByRequestInterceptor := false
                 loggedFetchError := false
                 outboundHeaders := resolved
                 outboundURL := cp.url
                 errorInterceptorsInvoked := 0 })
            else
              (st1,
               { result := .exnError name payload
                 transportCalled := true
                 timerArmed := armed
                 timerCleared := true
                 shortCircuitByRequestInterceptor := false
                 loggedFetchError := true
                 outboundHeaders := resolved
                 outboundURL := cp.url
                 errorInterceptorsInvoked := 0 })

/-- The heap of one `HTTPRequestFactory` and the requests it created.
`defaults` is the single `requestDefaults` array: `createRequest` passes
it to the `HTTPRequest` constructor by reference and the constructor
stores that same reference (`this.configBuilders = defaultConfigBuilders`),
so every request created by the factory aliases this one cell. -/
structure World where
  defaults : List Step
  requests : List ReqState

/-- A factory with no registered defaults and no requests yet. -/
def World.empty : World := { defaults := [], requests := [] }

/-- Translation of `HTTPRequestFactory.createRequest`: build a fresh
`HTTPRequest` bound (by reference) to the shared default-step array, and
return its identifier. -/
def World.createRequest (w : World) (url method : String) : World × Nat :=
  ({ w with
      requests := w.requests ++ [{ wasUsed := false, config := initialConfig url method }] },
   w.requests.length)

/-- Translation of `HTTPRequestFactory.withHeader`: push a default step
that calls `request.withHeader(key, value)` at execution time. -/
def World.withHeader (w : World) (n : String) (v : HeaderValue) : World :=
  { w with defaults := w.defaults ++ [((fun c => withHeaderC c n v) : Step)] }

/-- Registration performed by `factory.when(condition).withHeader(name, value)`:
the conditional proxy wraps the mutating call into a step that evaluates
the predicate against the request and only then applies `withHeader`. -/
def World.whenWithHeader (w : World) (p : ReqConfig → Bool) (n : String)
    (v : HeaderValue) : World :=
  { w with defaults := w.defaults ++ [whenStep p (fun c => withHeaderC c n v)] }

/-- Translation of `HTTPRequest.blank` called on request `rid`:
`this.configBuilders.splice(0, this.configBuilders.length)` empties the
array in place — and `this.configBuilders` is the factory's shared
`requestDefaults` cell. -/
def World.blank (w : World) (rid : Nat) : Option World :=
  match w.requests.get? rid with
  | none => none
  | some _ => some { w with defaults := [] }

/-- Execution of request `rid`: `execute()` reads `this.configBuilders`,
which is the factory's shared `defaults` cell at execution time. -/
def World.execute (w : World) (rid : Nat) (env : ExecEnv) :
    Option (World × ExecOutcome) :=
  match w.requests.get? rid with
  | none => none
  | some r =>
      let p := executeReq w.defaults r env
      some ({ w with requests := w.requests.set rid p.1 }, p.2)

/-- State of a `ConsoleLogger` instance: its private `level` field
(initialized to `"trace"`). -/
structure ConsoleLogger where
  level : String
deriving DecidableEq

/-- The `levelValues` table of `ConsoleLogger.ts`; names outside the
table have no value (JavaScript `undefined`). -/
def levelValues (s : String) : Option Nat :=
  if s = "trace" then some 0
  else if s = "debug" then some 1
  else if s = "info" then some 2
  else if s = "warn" then some 3
  else if s = "error" then some 4
  else none

/-- Translation of `ConsoleLogger.withLevel`: it assigns
`this.level = level` on the shared instance and returns a proxy view
over that same instance. The returned view carries no state of its own,
so the instance state after the call is the whole effect. -/
def ConsoleLogger.withLevel (l : ConsoleLogger) (level : String) : ConsoleLogger :=
  { l with level := level }

/-- Whether a call to method `property` on a view returned by `withLevel`
passes through to the underlying logger: the proxy compares
`levelValues[property] >= levelValues[this.level]` against the logger's
current `level` field at call time; a comparison involving `undefined`
is false in JavaScript, so unknown names are discarded. -/
def ConsoleLogger.viewPasses (l : ConsoleLogger) (property : String) : Bool :=
  match levelValues property, levelValues l.level with
  | some p, some s => s ≤ p
  | _, _ => false

/-- First-binding lookup in an association list (JavaScript property read). -/
def lookupKey {α : Type} (n : String) : List (String × α) → Option α
  | [] => none
  | (k, v) :: rest => if k = n then some v else lookupKey n rest

theorem lookupKey_setKey {α : Type} (hs : List (String × α)) (n : String) (v : α) :
    lookupKey n (setKey hs n v) = some v := by
  induction hs with
  | nil => simp [setKey, lookupKey]
  | cons p rest ih =>
      obtain ⟨k, w⟩ := p
      by_cases h : k = n
      · simp [setKey, h, lookupKey]
      · simp [setKey, h, lookupKey, ih]

theorem lookupKey_setupHeaders_setKey_lit (hs : List (String × HeaderValue))
    (n s : String) (v : ReqView) :
    lookupKey n (setupHeaders (setKey hs n (.lit s)) v) = some s := by
  induction hs with
  | nil => simp [setKey, setupHeaders, resolveHeader, lookupKey]
  | cons p rest ih =>
      obtain ⟨k, w⟩ := p
      by_cases h : k = n
      · simp [setKey, h, setupHeaders, resolveHeader, lookupKey]
      · cases hr : resolveHeader w v with
        | some t => simp [setKey, h, setupHeaders, hr, lookupKey, ih]
        | none => simp [setKey, h, setupHeaders, hr, ih]

theorem lookupKey_setupHeaders_of_not_mem (hs : List (String × HeaderValue))
    (n : String) (v : ReqView) (h : n ∉ hs.map Prod.fst) :
    lookupKey n (setupHeaders hs v) = none := by
  induction hs with
  | nil => simp [setupHeaders, lookupKey]
  | cons p rest ih =>
      obtain ⟨k, w⟩ := p
      simp only [List.map_cons, List.mem_cons, not_or] at h
      cases hr : resolveHeader w v with
      | some t =>
          have hk : k ≠ n := fun hkn => h.1 hkn.symm
          simp [setupHeaders, hr, lookupKey, hk, ih h.2]
      | none => simp [setupHeaders, hr, ih h.2]

theorem lookupKey_setupHeaders (hs : List (String × HeaderValue))
    (n : String) (hv : HeaderValue) (v : ReqView)
    (hnodup : (hs.map Prod.fst).Nodup) (hmem : (n, hv) ∈ hs) :
    lookupKey n (setupHeaders hs v) = resolveHeader hv v := by
  induction hs with
  | nil => cases hmem
  | cons p rest ih =>
      obtain ⟨k, w⟩ := p
      simp only [List.map_cons, List.nodup_cons] at hnodup
      rcases List.mem_cons.mp hmem with hhd | htl
      · obtain ⟨hk, hw⟩ := Prod.mk.injEq .. ▸ hhd
        subst hk hw
        cases hr : resolveHeader hv v with
        | some s => simp [setupHeaders, hr, lookupKey]
        | none =>
            simp only [setupHeaders, hr]
            exact lookupKey_setupHeaders_of_not_mem rest n v hnodup.1
      · have hk : k ≠ n := by
          intro hkn
          subst hkn
          exact hnodup.1 (List.mem_map_of_mem Prod.fst htl)
        cases hr : resolveHeader w v with
        | some s => simp [setupHeaders, hr, lookupKey, hk, ih hnodup.2 htl]
        | none => simp [setupHeaders, hr, ih hnodup.2 htl]

theorem runRequestInterceptors_eq_none (l : List RequestInterceptor) (v : ReqView)
    (h : ∀ i ∈ l, i v = none) : runRequestInterceptors l v = none := by
  induction l with
  | nil => rfl
  | cons i rest ih =>
      have hi : i v = none := h i (List.mem_cons_self i rest)
      simp [runRequestInterceptors, hi,
        ih (fun j hj => h j (List.mem_cons_of_mem i hj))]

theorem runRequestInterceptors_append_some (pre post : List RequestInterceptor)
    (i : RequestInterceptor) (v : ReqView) (r : Val)
    (hpre : ∀ j ∈ pre, j v = none) (hi : i v = some r) :
    runRequestInterceptors (pre ++ i :: post) v = some r := by
  induction pre with
  | nil => simp [runRequestInterceptors, hi]
  | cons j rest ih =>
      have hj : j v = none := hpre j (List.mem_cons_self j rest)
      simp [runRequestInterceptors, hj,
        ih (fun k hk => hpre k (List.mem_cons_of_mem j hk))]

theorem runErrorInterceptors_append_true (pre post : List ErrorInterceptor)
    (i : ErrorInterceptor) (e : HTTPError)
    (hpre : ∀ j ∈ pre, j e = false) (hi : i e = true) :
    runErrorInterceptors (pre ++ i :: post) e = pre.length + 1 := by
  induction pre with
  | nil => simp [runErrorInterceptors, hi]
  | cons j rest ih =>
      have hj : j e = false := hpre j (List.mem_cons_self j rest)
      simp [runErrorInterceptors, hj,
        ih (fun k hk => hpre k (List.mem_cons_of_mem j hk))]
      omega

theorem executeReq_fst_wasUsed (b : List Step) (r : ReqState) (env : ExecEnv) :
    (executeReq b r env).1.wasUsed = true := by
  by_cases h : r.wasUsed
  · simp [executeReq, h]
  · simp only [executeReq, h, if_false, Bool.false_eq_true]
    split
    · rfl
    · split
      · split
        · rfl
        · split
          · split <;> rfl
          · rfl
      · split <;> rfl

theorem executeReq_outboundHeaders (b : List Step) (r : ReqState) (env : ExecEnv)
    (h : r.wasUsed = false) :
    (executeReq b r env).2.outboundHeaders = resolvedHeadersOf b r.config := by
  simp only [executeReq, h, Bool.false_eq_true, if_false]
  split
  · rfl
  · split
    · split
      · rfl
      · split
        · split <;> rfl
        · rfl
    · split <;> rfl

theorem applySteps_append (ds es : List Step) (c : ReqConfig) :
    applySteps (ds ++ es) c = applySteps es (applySteps ds c) := by
  simp [applySteps, List.foldl_append]

theorem get?_concat_self {α : Type} (l : List α) (a : α) :
    (l ++ [a]).get? l.length = some a := by
  induction l with
  | nil => rfl
  | cons x rest ih => simp [ih]

/-- Claim C1: for every `HTTPRequest`, once a call to `execute()` has
completed — whatever the outcome of that first call (success,
request-interceptor short-circuit, HTTP-error rejection or transport
exception, over any transport environment and any contents of the shared
default-step list) — any subsequent `execute()` call on the same instance
fails immediately with the reuse error
(`HttpRequests cannot be reused ...`) and does not invoke the transport. -/
theorem execute_single_use (b1 b2 : List Step) (r : ReqState) (env1 env2 : ExecEnv) :
    (executeReq b2 (executeReq b1 r env1).1 env2).2.result = .reuseError reuseMessage ∧
    (executeReq b2 (executeReq b1 r env1).1 env2).2.transportCalled = false := by
  have h := executeReq_fst_wasUsed b1 r env1
  revert h
  generalize (executeReq b1 r env1).1 = st
  intro h
  constructor <;> simp [executeReq, h]

/-- Claim C8 counterexample: a request configured with a positive timeout
and a request interceptor that claims the request exits `execute()`
through the interceptor short-circuit, which in the source returns before
the `try/finally` that clears the timer — so the armed timeout timer is
left armed after the call settles, contradicting the claim that every
exit path clears it. -/
theorem requestInterceptor_shortCircuit_leaves_timer_armed :
    ((executeReq []
        { wasUsed := false
          config := { initialConfig "u" "GET" with
                      timeout := 5
                      requestInterceptors := [fun _ => some "hit"] } }
        ⟨fun _ _ => .exn "E" "p"⟩).2.timerLeftArmed = true) ∧
    ((executeReq []
        { wasUsed := false
          config := { initialConfig "u" "GET" with
                      timeout := 5
                      requestInterceptors := [fun _ => some "hit"] } }
        ⟨fun _ _ => .exn "E" "p"⟩).2.result = .value (some "hit")) :=
  ⟨rfl, rfl⟩

/-- Claim C8 as amended: the timeout timer is left armed after
`execute()` settles exactly when the call was short-circuited by a
request interceptor while a timer was armed; on every path that enters
the transport `try` block (success, response-interceptor short-circuit,
HTTP-error rejection, transport exception) the `finally` clause clears
the timer, and on the reuse path no timer is ever armed. -/
theorem timer_cleared_unless_requestInterceptor_shortCircuit
    (b : List Step) (r : ReqState) (env : ExecEnv) :
    (executeReq b r env).2.timerLeftArmed =
      ((executeReq b r env).2.shortCircuitByRequestInterceptor &&
       (executeReq b r env).2.timerArmed) := by
  by_cases h : r.wasUsed
  · simp [executeReq, h, ExecOutcome.timerLeftArmed]
  · simp only [executeReq, h, Bool.false_eq_true, if_false]
    split
    · simp [ExecOutcome.timerLeftArmed]
    · split
      · split
        · simp [ExecOutcome.timerLeftArmed]
        · split
          · split <;> simp [ExecOutcome.timerLeftArmed]
          · simp [ExecOutcome.timerLeftArmed]
      · split <;> simp [ExecOutcome.timerLeftArmed]

/-- Claim C10 counterexample: `withLevel` assigns `this.level` on the
shared `ConsoleLogger` instance and the returned view consults that field
at call time, so a later `withLevel("trace")` on the same logger changes
what the earlier `withLevel("error")` view discards: after the second
call, a `debug` message passes through the first view even though a view
filtering against `"error"` would discard it; and `withLevel` visibly
mutates the shared state. -/
theorem withLevel_views_interfere_counterexample :
    (((ConsoleLogger.mk "trace").withLevel "error").withLevel "trace").viewPasses "debug"
        = true ∧
    (ConsoleLogger.mk "error").viewPasses "debug" = false ∧
    ((ConsoleLogger.mk "trace").withLevel "error").level ≠ (ConsoleLogger.mk "trace").level := by
  refine ⟨rfl, rfl, ?_⟩
  decide

/-- Claim C10 as amended: `withLevel(level)` overwrites the logger's
shared `level` field and the view it returns filters each call against
the logger's current level, so after two `withLevel` calls every view
filters against the second level — the most recent `withLevel` call on
the underlying logger governs all outstanding views, regardless of the
level the earlier view was created with. -/
theorem withLevel_filters_against_latest_level
    (l : ConsoleLogger) (l1 l2 prop : String) :
    ((l.withLevel l1).withLevel l2).viewPasses prop
        = (ConsoleLogger.mk l2).viewPasses prop ∧
    ((l.withLevel l1).withLevel l2).level = l2 :=
  ⟨rfl, rfl⟩

/-- Claim C2: on a fresh request, the request interceptors run in
registration order; the first one whose result is defined determines the
request's result — after the response-body transformers are applied to it
— and the transport is never invoked; an interceptor returning
`undefined` falls through to the next one or, when all decline, to the
transport call. -/
theorem execute_requestInterceptor_firstClaimWins (b : List Step) (r : ReqState)
    (env : ExecEnv) (h : r.wasUsed = false) :
    (∀ pre i post res,
        (preparedConfig b r.config).requestInterceptors = pre ++ i :: post →
        (∀ j ∈ pre, j (preparedConfig b r.config).view = none) →
        i (preparedConfig b r.config).view = some res →
        (executeReq b r env).2.result =
          .value (some (applyTransformers
            (preparedConfig b r.config).responseBodyTransformers res
            (preparedConfig b r.config).view)) ∧
        (executeReq b r env).2.transportCalled = false) ∧
    ((∀ j ∈ (preparedConfig b r.config).requestInterceptors,
        j (preparedConfig b r.config).view = none) →
      (executeReq b r env).2.transportCalled = true) := by
  constructor
  · intro pre i post res hsplit hpre hi
    have hrun : runRequestInterceptors (preparedConfig b r.config).requestInterceptors
        (preparedConfig b r.config).view = some res := by
      rw [hsplit]
      exact runRequestInterceptors_append_some pre post i _ res hpre hi
    constructor <;> simp [executeReq, h, hrun]
  · intro hall
    have hrun := runRequestInterceptors_eq_none _ _ hall
    simp only [executeReq, h, Bool.false_eq_true, if_false, hrun]
    split
    · split
      · rfl
      · split
        · split <;> rfl
        · rfl
    · split <;> rfl

/-- Concrete request for the C2 witness: two request interceptors (the
first declines, the second claims with `"res"`) and one response-body
transformer appending `"!"`. -/
def c2req : ReqState :=
  { wasUsed := false
    config := { initialConfig "u" "GET" with
                requestInterceptors := [fun _ => none, fun _ => some "res"]
                responseBodyTransformers := [fun x _ => x ++ "!"] } }

/-- Transport environment for the C2 witness (never reached). -/
def c2env : ExecEnv := ⟨fun _ _ => .exn "E" "p"⟩

/-- Witness for claim C2 at a concrete input: the second interceptor's
result, transformed to `"res!"`, is the request's result and the
transport is not invoked. -/
theorem execute_requestInterceptor_firstClaimWins_witness :
    c2req.wasUsed = false ∧
    (executeReq [] c2req c2env).2.result = .value (some "res!") ∧
    (executeReq [] c2req c2env).2.transportCalled = false := by
  have h := (execute_requestInterceptor_firstClaimWins [] c2req c2env rfl).1
    [fun _ => none] (fun _ => some "res") [] "res" rfl
    (by
      intro j hj
      rw [List.mem_singleton] at hj
      subst hj
      rfl)
    rfl
  exact ⟨rfl, h.1, h.2⟩

/-- Concrete request for the C3 counterexample: one response interceptor
that claims every response. -/
def c3req : ReqState :=
  { wasUsed := false
    config := { initialConfig "u" "GET" with
                responseInterceptors := [fun _ _ => some "handled"] } }

/-- Transport environment for the C3 counterexample: the transport
returns a 401 response. -/
def c3env : ExecEnv := ⟨fun _ _ => .resp ⟨401, "UNAUTHORIZED", "b"⟩⟩

/-- Claim C3 counterexample: a request whose response interceptor returns
a defined value for a 401 transport response resolves with that value —
`execute()` does not reject at all, so the claim that every non-2xx
transport response makes `execute()` reject with an `HTTPError` fails on
this input. -/
theorem responseInterceptor_preempts_401_rejection :
    (executeReq [] c3req c3env).2.result = .value (some "handled") ∧
    (executeReq [] c3req c3env).2.result ≠
      .httpError { code := 401, message := "UNAUTHORIZED", body := some "b" } := by
  constructor
  · rfl
  · decide

/-- Claim C3 as amended: for a fresh request that no request interceptor
claims and whose transport response has a non-2xx status, provided no
response interceptor returns a defined value for that response,
`execute()` rejects with an `HTTPError` built from the response status,
status text and parsed body — for every list of error interceptors, so no
error interceptor can suppress the rejection; a 401 status gives
`isUnauthorized() === true`; and the error interceptors run in
registration order, a truthy return stopping the remaining ones. -/
theorem execute_httpError_rejection_surfaced (b : List Step) (r : ReqState)
    (env : ExecEnv) (resp : TransportResponse)
    (h : r.wasUsed = false)
    (hreq : runRequestInterceptors (preparedConfig b r.config).requestInterceptors
        (preparedConfig b r.config).view = none)
    (hfetch : env.fetch (preparedConfig b r.config).url (descriptorOf b r.config) =
        .resp resp)
    (hresp : runResponseInterceptors (preparedConfig b r.config).responseInterceptors
        resp (preparedConfig b r.config).view = none)
    (hok : resp.ok = false) :
    (executeReq b r env).2.result =
      .httpError { code := (resp.status : Int), message := resp.statusText,
                   body := some resp.body } ∧
    (resp.status = 401 →
      HTTPError.isUnauthorized
        { code := (resp.status : Int), message := resp.statusText,
          body := some resp.body } = true) ∧
    (∀ pre i post,
        (preparedConfig b r.config).errorInterceptors = pre ++ i :: post →
        (∀ j ∈ pre,
          j { code := (resp.status : Int), message := resp.statusText,
              body := some resp.body } = false) →
        i { code := (resp.status : Int), message := resp.statusText,
            body := some resp.body } = true →
        (executeReq b r env).2.errorInterceptorsInvoked = pre.length + 1) := by
  refine ⟨?_, ?_, ?_⟩
  · simp [executeReq, h, hreq, hfetch, hresp, hok]
  · intro h401
    simp [HTTPError.isUnauthorized, h401]
  · intro pre i post hsplit hpre hi
    have hcount : runErrorInterceptors (preparedConfig b r.config).errorInterceptors
        { code := (resp.status : Int), message := resp.statusText,
          body := some resp.body } = pre.length + 1 := by
      rw [hsplit]
      exact runErrorInterceptors_append_true pre post i _ hpre hi
    simp [executeReq, h, hreq, hfetch, hresp, hok, hcount]

/-- Concrete request for the C3 witness: two error interceptors, the
first declining and the second marking 401 errors handled. -/
def c3wreq : ReqState :=
  { wasUsed := false
    config := { initialConfig "u" "GET" with
                errorInterceptors := [fun _ => false, fun e => e.code == 401] } }

/-- Transport environment for the C3 witness: the transport returns a
401 response. -/
def c3wenv : ExecEnv := ⟨fun _ _ => .resp ⟨401, "UNAUTHORIZED", "b"⟩⟩

/-- Witness for the amended claim C3 at a concrete input: a 401 response
is rejected as an `HTTPError` with code 401 and
`isUnauthorized() === true`, and both error interceptors run (the second
one stops the chain). -/
theorem execute_httpError_rejection_surfaced_witness :
    (executeReq [] c3wreq c3wenv).2.result =
      .httpError { code := 401, message := "UNAUTHORIZED", body := some "b" } ∧
    HTTPError.isUnauthorized
      { code := 401, message := "UNAUTHORIZED", body := some "b" } = true ∧
    (executeReq [] c3wreq c3wenv).2.errorInterceptorsInvoked = 2 := by
  have h := execute_httpError_rejection_surfaced [] c3wreq c3wenv
    ⟨401, "UNAUTHORIZED", "b"⟩ rfl rfl rfl rfl (by decide)
  refine ⟨h.1, h.2.1 rfl, ?_⟩
  have hc := h.2.2 [fun _ => false] (fun e => e.code == 401) [] rfl
    (by
      intro j hj
      rw [List.mem_singleton] at hj
      subst hj
      rfl)
    (by decide)
  exact hc

/-- Claim C4: for a fresh request that no request interceptor claims, if
the transport throws, then: an abort/cancellation error (the thrown
error's `name` is `"AbortError"`, as produced both by explicit
cancellation and by expiry of a configured timeout) makes `execute()`
reject with an `HTTPError` with sentinel code `-1` and message
`"Request aborted"`, for which `isAborted() === true`; any other thrown
transport error is logged and propagated to the caller unchanged. -/
theorem execute_transport_exception_translation (b : List Step) (r : ReqState)
    (env : ExecEnv) (name payload : String)
    (h : r.wasUsed = false)
    (hreq : runRequestInterceptors (preparedConfig b r.config).requestInterceptors
        (preparedConfig b r.config).view = none)
    (hfetch : env.fetch (preparedConfig b r.config).url (descriptorOf b r.config) =
        .exn name payload) :
    (name = "AbortError" →
      (executeReq b r env).2.result =
        .httpError { code := -1, message := "Request aborted", body := none } ∧
      HTTPError.isAborted { code := -1, message := "Request aborted", body := none }
        = true) ∧
    (name ≠ "AbortError" →
      (executeReq b r env).2.result = .exnError name payload ∧
      (executeReq b r env).2.loggedFetchError = true) := by
  constructor
  · intro habort
    constructor
    · simp [executeReq, h, hreq, hfetch, habort]
    · rfl
  · intro hother
    constructor <;> simp [executeReq, h, hreq, hfetch, hother]

/-- Concrete request for the C4 witness. -/
def c4req : ReqState := { wasUsed := false, config := initialConfig "u" "GET" }

/-- Transport environment for the C4 witness: the transport throws an
`AbortError` (as when an armed timeout fires before the response). -/
def c4env : ExecEnv := ⟨fun _ _ => .exn "AbortError" ""⟩

/-- Witness for claim C4 at a concrete input: an aborted transport call
is rejected as the sentinel `HTTPError` with code `-1` and
`isAborted() === true`. -/
theorem execute_transport_exception_translation_witness :
    (executeReq [] c4req c4env).2.result =
      .httpError { code := -1, message := "Request aborted", body := none } ∧
    HTTPError.isAborted { code := -1, message := "Request aborted", body := none }
      = true :=
  (execute_transport_exception_translation [] c4req c4env "AbortError" ""
    rfl rfl rfl).1 rfl

/-- Claim C5 counterexample: create a request from a factory with no
defaults, then register `withHeader("X", "y")` on the factory, then
execute the previously created request — the header IS applied, because
`createRequest` hands the `requestDefaults` array to the request by live
reference, not as a snapshot; this contradicts the claim that steps added
after the request's creation do not apply to it. -/
theorem postCreation_step_applies_counterexample :
    (World.execute
        ((World.empty.createRequest "u" "GET").1.withHeader "X" (.lit "y"))
        (World.empty.createRequest "u" "GET").2
        ⟨fun _ _ => .exn "E" "p"⟩).map
      (fun q => lookupKey "X" q.2.outboundHeaders) = some (some "y") := rfl

/-- Claim C5 as amended: the default-step list a request executes is the
factory's `requestDefaults` array as it stands at `execute()` time, via
the shared live reference — so a `withHeader` step registered on the
factory after `createRequest` returned does apply to the already-created
request: its header is present in the outbound headers of that request's
execution, for every starting factory state. -/
theorem defaults_list_live_shared (w0 : World) (url m n s : String) (env : ExecEnv) :
    (World.execute ((World.createRequest w0 url m).1.withHeader n (.lit s))
        (World.createRequest w0 url m).2 env).map
      (fun q => lookupKey n q.2.outboundHeaders) = some (some s) := by
  have hget : ((w0.requests ++
      [{ wasUsed := false, config := initialConfig url m }] :
        List ReqState).get? w0.requests.length) =
      some { wasUsed := false, config := initialConfig url m } :=
    get?_concat_self _ _
  simp only [World.execute, World.createRequest, World.withHeader, hget,
    Option.map_some']
  rw [executeReq_outboundHeaders _ _ _ rfl]
  unfold resolvedHeadersOf
  rw [applySteps_append]
  simp only [applySteps, List.foldl_cons, List.foldl_nil, withHeaderC]
  rw [lookupKey_setupHeaders_setKey_lit]

/-- A starting factory for the C6 counterexample: one registered default
header step. -/
def c6w0 : World := World.empty.withHeader "X" (.lit "y")

/-- The C6 world after a first request has been created. -/
def c6w1 : World := (c6w0.createRequest "a" "GET").1

/-- Claim C6 counterexample: `blank()` on request A splices the shared
`requestDefaults` array in place, so the factory's own list is emptied
(it had one step, afterwards zero), and a request B created later from
the same factory no longer gets the previously registered default header
when it executes — contradicting both parts of the claim. -/
theorem blank_empties_factory_defaults_counterexample :
    World.blank c6w1 0 = some { defaults := [], requests := c6w1.requests } ∧
    c6w1.defaults.length = 1 ∧
    (World.execute
        (({ defaults := [], requests := c6w1.requests } : World).createRequest
          "b" "GET").1
        1 ⟨fun _ _ => .exn "E" "p"⟩).map
      (fun q => lookupKey "X" q.2.outboundHeaders) = some none :=
  ⟨rfl, rfl, rfl⟩

/-- Claim C6 as amended: because the request's captured list is the
factory's own `requestDefaults` array, `blank()` on any existing request
empties the factory's list as well, and a request created afterwards
executes with no default steps at all: its outbound headers are exactly
those of a blank configuration (none). -/
theorem blank_clears_shared_defaults (w : World) (rid : Nat) (url m : String)
    (env : ExecEnv) (h : rid < w.requests.length) :
    World.blank w rid = some { defaults := [], requests := w.requests } ∧
    (World.execute
        (({ defaults := [], requests := w.requests } : World).createRequest url m).1
        (({ defaults := [], requests := w.requests } : World).createRequest url m).2
        env).map (fun q => q.2.outboundHeaders) = some [] := by
  constructor
  · have hsome : ∃ x, w.requests.get? rid = some x := by
      rw [List.get?_eq_get h]
      exact ⟨_, rfl⟩
    obtain ⟨x, hx⟩ := hsome
    unfold World.blank
    rw [hx]
  · have hget : ((w.requests ++
        [{ wasUsed := false, config := initialConfig url m }] :
          List ReqState).get? w.requests.length) =
        some { wasUsed := false, config := initialConfig url m } :=
      get?_concat_self _ _
    simp only [World.execute, World.createRequest, hget, Option.map_some']
    rw [executeReq_outboundHeaders _ _ _ rfl]
    rfl

/-- Witness for the amended claim C6 at a concrete input: a factory with
one default step and one created request; `blank` empties the shared
list and a later request executes with empty outbound headers. -/
theorem blank_clears_shared_defaults_witness :
    World.blank c6w1 0 = some { defaults := [], requests := c6w1.requests } ∧
    (World.execute
        (({ defaults := [], requests := c6w1.requests } : World).createRequest
          "b" "GET").1
        (({ defaults := [], requests := c6w1.requests } : World).createRequest
          "b" "GET").2
        ⟨fun _ _ => .exn "E" "p"⟩).map (fun q => q.2.outboundHeaders) = some [] :=
  blank_clears_shared_defaults c6w1 0 "b" "GET" ⟨fun _ _ => .exn "E" "p"⟩
    (by decide)

/-- Claim C7: registering `factory.when(p).withHeader(name, value)`
enqueues a guarded step; when a request created from that factory
executes, after the default steps have been applied the header is present
exactly when `p` evaluated to true on the request (as it stood when the
guarded step ran), absent when it evaluated to false, and in the false
case the whole configuration is identical to the configuration without
the guarded step (the guarded step is a no-op), while in the true case
only the headers differ by the one added entry. -/
theorem when_guarded_header_conditional (w : World) (p : ReqConfig → Bool)
    (n : String) (v : HeaderValue) (url m : String)
    (habs : lookupKey n (applySteps w.defaults (initialConfig url m)).headers = none) :
    (p (applySteps w.defaults (initialConfig url m)) = true →
      applySteps (w.whenWithHeader p n v).defaults (initialConfig url m) =
        withHeaderC (applySteps w.defaults (initialConfig url m)) n v) ∧
    (p (applySteps w.defaults (initialConfig url m)) = false →
      applySteps (w.whenWithHeader p n v).defaults (initialConfig url m) =
        applySteps w.defaults (initialConfig url m)) ∧
    (lookupKey n
        (applySteps (w.whenWithHeader p n v).defaults (initialConfig url m)).headers =
      if p (applySteps w.defaults (initialConfig url m)) then some v else none) := by
  have hfull : applySteps (w.whenWithHeader p n v).defaults (initialConfig url m) =
      whenStep p (fun c => withHeaderC c n v)
        (applySteps w.defaults (initialConfig url m)) := by
    unfold World.whenWithHeader
    rw [applySteps_append]
    simp [applySteps]
  by_cases hp : p (applySteps w.defaults (initialConfig url m)) = true
  · refine ⟨fun _ => ?_, fun hfalse => ?_, ?_⟩
    · rw [hfull]
      simp [whenStep, hp]
    · rw [hp] at hfalse
      cases hfalse
    · rw [hfull]
      simp only [whenStep, hp, if_true, hp]
      simp [withHeaderC, lookupKey_setKey]
  · have hp' : p (applySteps w.defaults (initialConfig url m)) = false :=
      Bool.not_eq_true _ ▸ Bool.eq_false_iff.mpr hp
    refine ⟨fun htrue => ?_, fun _ => ?_, ?_⟩
    · rw [hp'] at htrue
      cases htrue
    · rw [hfull]
      simp [whenStep, hp']
    · rw [hfull]
      simp [whenStep, hp', habs]

/-- Witness for claim C7 at a concrete input: a guarded header step whose
predicate (method is GET) holds on the created request, so the header is
present after the default steps run. -/
theorem when_guarded_header_conditional_witness :
    lookupKey "X"
        (applySteps
          ((World.empty.whenWithHeader (fun c => c.method = "GET") "X"
            (.lit "y")).defaults)
          (initialConfig "u" "GET")).headers = some (.lit "y") := by
  have h := (when_guarded_header_conditional World.empty
    (fun c => c.method = "GET") "X" (.lit "y") "u" "GET" rfl).2.2
  simpa using h

/-- Concrete request for the C9 counterexample: one header whose resolver
returns the empty string. -/
def c9req : ReqState :=
  { wasUsed := false
    config := { initialConfig "u" "GET" with
                headers := [("X", .res (fun _ => some ""))] } }

/-- Claim C9 counterexample: a header resolver returning the empty string
does not cause the header to be omitted — `headers[n] ?? delete
headers[n]` only deletes nullish values, and the empty string is not
nullish — so the outbound request carries the header with value `""`,
contradicting the claim that an empty result omits the header. -/
theorem emptyString_header_retained_counterexample :
    lookupKey "X"
        ((executeReq [] c9req ⟨fun _ _ => .exn "E" "p"⟩).2.outboundHeaders) =
      some "" := rfl

/-- Claim C9 as amended: during `execute()`, each header entry is
resolved against the request — a literal string passes through unchanged,
a resolver function is called with the request and its result is used,
the header being omitted exactly when that result is nullish
(`undefined`/`null`); a returned empty string is kept, not omitted.
Pointwise, for any header name with a unique binding after the default
steps have run, looking the name up in the outbound headers gives
precisely the resolution of its configured value. -/
theorem header_resolution_pointwise (b : List Step) (r : ReqState) (env : ExecEnv)
    (n : String) (hv : HeaderValue)
    (h : r.wasUsed = false)
    (hnodup : ((applySteps b r.config).headers.map Prod.fst).Nodup)
    (hmem : (n, hv) ∈ (applySteps b r.config).headers) :
    lookupKey n ((executeReq b r env).2.outboundHeaders) =
      resolveHeader hv (applySteps b r.config).view := by
  rw [executeReq_outboundHeaders _ _ _ h]
  exact lookupKey_setupHeaders _ _ _ _ hnodup hmem

/-- Concrete request for the C9 witness: a literal header, a resolver
producing a value, and a resolver producing `undefined`. -/
def c9wreq : ReqState :=
  { wasUsed := false
    config := { initialConfig "u" "GET" with
                headers := [("A", .lit "1"), ("B", .res (fun _ => some "2")),
                            ("C", .res (fun _ => none))] } }

/-- Witness for the amended claim C9 at a concrete input: the literal
header passes through, the resolver-backed header carries the resolver's
result, and the header whose resolver returned `undefined` is omitted. -/
theorem header_resolution_pointwise_witness :
    lookupKey "A" ((executeReq [] c9wreq ⟨fun _ _ => .exn "E" "p"⟩).2.outboundHeaders)
        = some "1" ∧
    lookupKey "C" ((executeReq [] c9wreq ⟨fun _ _ => .exn "E" "p"⟩).2.outboundHeaders)
        = none := by
  constructor
  · have h := header_resolution_pointwise [] c9wreq ⟨fun _ _ => .exn "E" "p"⟩
      "A" (.lit "1") rfl (by simp [c9wreq, applySteps, initialConfig])
      (by simp [c9wreq, applySteps, initialConfig])
    exact h
  · have h := header_resolution_pointwise [] c9wreq ⟨fun _ _ => .exn "E" "p"⟩
      "C" (.res (fun _ => none)) rfl (by simp [c9wreq, applySteps, initialConfig])
      (by simp [c9wreq, applySteps, initialConfig])
    exact h

end HttpReqFactory
